import Mathlib

/-!
Verification of the StarWave particle-cloud system.

The repository holds two variants of the component:
namespace `V2` models src/src/3d.jsx (the primary variant) and
namespace `V1` models src/3d.jsx (the variant that has the helix
pattern and the explicit autoRotateY angle).

JavaScript floating-point numbers are modelled as real numbers; the
Math.random() supply is modelled as an explicit stream of reals
threaded through the generators.
-/

noncomputable section

namespace StarWave

/-- lerp from both 3d.jsx files: a * (1 - t) + b * t. -/
def lerp (a b t : ℝ) : ℝ := a * (1 - t) + b * t

/-- Math.hypot over three components: sqrt of the sum of squares. -/
def hypot3 (a b c : ℝ) : ℝ := Real.sqrt (a ^ 2 + b ^ 2 + c ^ 2)

/-- JavaScript truncation toward zero, as used by the percent operator. -/
def jsTrunc (x : ℝ) : ℤ := if 0 ≤ x then ⌊x⌋ else ⌈x⌉

/-- JavaScript remainder a percent b, which is a - b * trunc (a / b). -/
def jsMod (a b : ℝ) : ℝ := a - b * (jsTrunc (a / b) : ℝ)

/-- A three-component vector (THREE.Vector3 restricted to its data). -/
structure Vec3 where
  x : ℝ
  y : ℝ
  z : ℝ

/-- One MediaPipe hand landmark: normalized image coordinates plus depth. -/
structure Landmark where
  x : ℝ
  y : ℝ
  z : ℝ

/-- The Math.random() supply: a stream of reals and a cursor into it. -/
structure Rng where
  stream : ℕ → ℝ
  pos : ℕ

/-- Draw the next random sample and advance the cursor. -/
def Rng.next (g : Rng) : ℝ × Rng := (g.stream g.pos, ⟨g.stream, g.pos + 1⟩)

/-- The pattern tag. The JS code switches on a string; every string other
than the named cases takes the default branch, collected here as other.
helix exists only in the V1 file and galaxy only as a named case in V2;
in the respective other file those tags fall to the default branch. -/
inductive Pattern
  | sphere
  | cube
  | torus
  | helix
  | heart
  | wave
  | galaxy
  | other
  deriving DecidableEq

/-- three.js hue2rgb helper used by Color.setHSL. -/
def hue2rgb (p q t : ℝ) : ℝ :=
  let t1 := if t < 0 then t + 1 else t
  let t2 := if 1 < t1 then t1 - 1 else t1
  if t2 < 1 / 6 then p + (q - p) * 6 * t2
  else if t2 < 1 / 2 then q
  else if t2 < 2 / 3 then p + (q - p) * 6 * (2 / 3 - t2)
  else p

/-- three.js Color.setHSL, returning the (r, g, b) triple. -/
def setHSL (h s l : ℝ) : ℝ × ℝ × ℝ :=
  let h1 := Int.fract h
  let s1 := max 0 (min 1 s)
  let l1 := max 0 (min 1 l)
  if s1 = 0 then (l1, l1, l1)
  else
    let p := if l1 ≤ 0.5 then l1 * (1 + s1) else l1 + s1 - l1 * s1
    let q := 2 * l1 - p
    (hue2rgb q p (h1 + 1 / 3), hue2rgb q p h1, hue2rgb q p (h1 - 1 / 3))

/-- Result record of generateParticleData in both variants. -/
structure ParticleData where
  positions : List ℝ
  targetPositions : List ℝ
  sizes : List ℝ
  colors : List ℝ

namespace V2

/-- Per-index position rule of generateParticleData in src/src/3d.jsx,
one switch case per pattern, threading the random supply exactly in the
order the JS code calls Math.random(). -/
def genPos (p : Pattern) (scale : ℝ) (i count : ℕ) (g : Rng) : Vec3 × Rng :=
  match p with
  | Pattern.sphere =>
      let u := g.next.1
      let g := g.next.2
      let v := g.next.1
      let g := g.next.2
      let theta := 2 * Real.pi * u
      let phi := Real.arccos (2 * v - 1)
      let dir : Vec3 :=
        ⟨Real.sin phi * Real.cos theta, Real.sin phi * Real.sin theta, Real.cos phi⟩
      let e := g.next.1
      let g := g.next.2
      if e < 0.7 then
        let r0 := g.next.1
        let g := g.next.2
        let r1 := scale * (0.9 + 0.1 * r0)
        let gl := g.next.1
        let g := g.next.2
        if gl < 0.25 then
          let gr := g.next.1
          let g := g.next.2
          let r2 := r1 * (1.02 + 0.05 * gr)
          (⟨dir.x * r2, dir.y * r2, dir.z * r2⟩, g)
        else
          (⟨dir.x * r1, dir.y * r1, dir.z * r1⟩, g)
      else
        let t := g.next.1
        let g := g.next.2
        let innerFactor := 0.9 * (1 - t * t)
        let r1 := scale * innerFactor
        (⟨dir.x * r1, dir.y * r1, dir.z * r1⟩, g)
  | Pattern.cube =>
      let x0 := g.next.1
      let g := g.next.2
      let y0 := g.next.1
      let g := g.next.2
      let z0 := g.next.1
      let g := g.next.2
      let x := x0 * 2 - 1
      let y := y0 * 2 - 1
      let z := z0 * 2 - 1
      let e := g.next.1
      let g := g.next.2
      if e < 0.7 then
        let maxAbs0 := max |x| (max |y| |z|)
        let maxAbs := if maxAbs0 = 0 then 1 else maxAbs0
        let factor := 1 / maxAbs
        let gl := g.next.1
        let g := g.next.2
        if gl < 0.25 then
          let gw := g.next.1
          let g := g.next.2
          let factor2 := factor * (1.02 + 0.05 * gw)
          (⟨x * (factor2 * scale), y * (factor2 * scale), z * (factor2 * scale)⟩, g)
        else
          (⟨x * (factor * scale), y * (factor * scale), z * (factor * scale)⟩, g)
      else
        let innerScale := scale * 0.7
        (⟨x * innerScale, y * innerScale, z * innerScale⟩, g)
  | Pattern.torus =>
      let u1 := g.next.1
      let g := g.next.2
      let u2 := g.next.1
      let g := g.next.2
      let angle1 := u1 * Real.pi * 2
      let angle2 := u2 * Real.pi * 2
      let R := scale * 0.7
      let rMax := scale * 0.3
      let u3 := g.next.1
      let g := g.next.2
      let r := Real.sqrt u3 * rMax
      (⟨(R + r * Real.cos angle2) * Real.cos angle1,
        r * Real.sin angle2,
        (R + r * Real.cos angle2) * Real.sin angle1⟩, g)
  | Pattern.heart =>
      let hScale := scale * 0.1
      let u0 := g.next.1
      let g := g.next.2
      let t := u0 * Real.pi * 2
      let densityFactor : ℝ :=
        if t < Real.pi * 0.15 ∨ Real.pi * 1.85 < t then 0.6
        else if Real.pi * 0.9 < t ∧ t < Real.pi * 1.1 then 0.7
        else 1
      let baseX := 16 * Real.sin t ^ 3
      let baseY :=
        13 * Real.cos t - 5 * Real.cos (2 * t) - 2 * Real.cos (3 * t) - Real.cos (4 * t)
      let outerThreshold := 0.3 * densityFactor
      let o := g.next.1
      let g := g.next.2
      if o < outerThreshold then
        let u1 := g.next.1
        let g := g.next.2
        let r := 0.9 + u1 * 0.1
        let zThickness := r * scale * 0.3
        let u2 := g.next.1
        let g := g.next.2
        (⟨hScale * baseX * r, hScale * baseY * r, (u2 - 0.5) * zThickness⟩, g)
      else
        let innerBias : ℝ := if densityFactor < 1 then 0.5 else 0.3
        let u1 := g.next.1
        let g := g.next.2
        let r := Real.rpow u1 innerBias * 0.9
        let zThickness := r * scale * 0.3
        let u2 := g.next.1
        let g := g.next.2
        (⟨hScale * baseX * r, hScale * baseY * r, (u2 - 0.5) * zThickness⟩, g)
  | Pattern.wave =>
      let gridSize := ⌈Real.sqrt (count : ℝ)⌉₊
      let x := (((i % gridSize : ℕ) : ℝ) / (gridSize : ℝ) - 0.5) * scale * 2
      let z := (((i / gridSize : ℕ) : ℝ) / (gridSize : ℝ) - 0.5) * scale * 2
      let baseY := Real.sin (x * 1.5) * Real.cos (z * 1.5) * scale * 0.4
      let u0 := g.next.1
      let g := g.next.2
      let yOffset := (u0 - 0.5) * scale * 0.2
      (⟨x, baseY + yOffset, z⟩, g)
  | Pattern.galaxy =>
      let arms : ℕ := 3
      let armIndex := i % arms
      let angleOffset := ((armIndex : ℝ) / (arms : ℝ)) * Real.pi * 2
      let u0 := g.next.1
      let g := g.next.2
      let radius := Real.rpow u0 0.5 * scale
      let angle := angleOffset + (radius / scale) * Real.pi * 4
      let u1 := g.next.1
      let g := g.next.2
      let offsetX := (u1 - 0.5) * 0.3
      let u2 := g.next.1
      let g := g.next.2
      let offsetY := (u2 - 0.5) * 0.15
      let u3 := g.next.1
      let g := g.next.2
      let offsetZ := (u3 - 0.5) * 0.3
      (⟨radius * Real.cos angle + offsetX, offsetY, radius * Real.sin angle + offsetZ⟩, g)
  | _ =>
      let phi := Real.arccos (-1 + (2 * (i : ℝ)) / (count : ℝ))
      let theta := Real.sqrt ((count : ℝ) * Real.pi) * phi
      let u0 := g.next.1
      let g := g.next.2
      let r := Real.rpow u0 (1 / 3) * scale
      (⟨r * Real.sin phi * Real.sin theta, r * Real.cos phi, r * Real.sin phi * Real.cos theta⟩, g)

/-- The body of the main generation loop of generateParticleData in
src/src/3d.jsx: for each index it appends the three position components
(written identically to positions and targetPositions in the JS code),
one size sample, and the three HSL-derived color components. -/
def mainLoop (p : Pattern) (scale : ℝ) (count : ℕ) :
    ℕ → ℕ → Rng → (List ℝ × List ℝ × List ℝ) × Rng
  | 0, _, g => (([], [], []), g)
  | rem + 1, i, g =>
      let pr := genPos p scale i count g
      let g1 := pr.2
      let sz := g1.next.1
      let g2 := g1.next.2
      let hh := g2.next.1
      let g3 := g2.next.2
      let ll := g3.next.1
      let g4 := g3.next.2
      let c := setHSL (hh * 0.1 + 0.5) 0.7 (ll * 0.5 + 0.3)
      let rest := mainLoop p scale count rem (i + 1) g4
      ((pr.1.x :: pr.1.y :: pr.1.z :: rest.1.1,
        (sz * 0.5 + 0.1) :: rest.1.2.1,
        c.1 :: c.2.1 :: c.2.2 :: rest.1.2.2), rest.2)

/-- The final loop of generateParticleData: overwrite every entry of the
positions array with origin jitter (rand - 0.5) * 0.1 for the entry
animation. -/
def jitterLoop : ℕ → Rng → List ℝ × Rng
  | 0, g => ([], g)
  | n + 1, g =>
      let r := g.next.1
      let g1 := g.next.2
      let rest := jitterLoop n g1
      (((r - 0.5) * 0.1) :: rest.1, rest.2)

/-- generateParticleData of src/src/3d.jsx: scale is 2 for heart and
cube and 3 otherwise; the main loop fills targetPositions, sizes and
colors, and the positions array is then fully overwritten with origin
jitter. -/
def generateParticleData (p : Pattern) (count : ℕ) (g : Rng) : ParticleData :=
  let scale : ℝ := if p = Pattern.heart ∨ p = Pattern.cube then 2 else 3
  let main := mainLoop p scale count count 0 g
  let jit := jitterLoop (count * 3) main.2
  { positions := jit.1
    targetPositions := main.1.1
    sizes := main.1.2.1
    colors := main.1.2.2 }

/-- The mutable session state threeRefs.current of src/src/3d.jsx,
restricted to its numeric and pattern fields, together with the
particles.rotation Euler angles read and written by the callbacks. -/
structure Refs where
  positions : List ℝ
  targetPositions : List ℝ
  sizes : List ℝ
  colors : List ℝ
  handScaleTarget : ℝ
  handScaleCurrent : ℝ
  currentPattern : Pattern
  isHandDetected : Bool
  rotationXTarget : ℝ
  rotationYTarget : ℝ
  rotX : ℝ
  rotY : ℝ
  rotZ : ℝ

/-- The scale mapping block of hands.onResults in src/src/3d.jsx:
clamp the normalized pinch ratio into the configured band and map it
linearly onto the scale band. -/
def scaleMap (normalizedDist : ℝ) : ℝ :=
  let minNorm : ℝ := 0.05
  let maxNorm : ℝ := 1.2
  let minScale : ℝ := 0.2
  let maxScale : ℝ := 3
  let clamped := min 1 (max 0 ((normalizedDist - minNorm) / (maxNorm - minNorm)))
  lerp minScale maxScale clamped

/-- Freshly computed Y rotation target from the palm reference point:
image x normalized to [-1, 1] times the 45 degree cap. -/
def newRotYOf (m : Landmark) : ℝ := ((m.x - 0.5) * 2) * (Real.pi / 4)

/-- Freshly computed X rotation target: image y normalized to [-1, 1],
inverted, times the 30 degree cap. -/
def newRotXOf (m : Landmark) : ℝ := -((m.y - 0.5) * 2) * (Real.pi / 6)

/-- hands.onResults of src/src/3d.jsx. A frame either carries exactly 21
landmarks or nothing. With landmarks, the whole update is guarded by
baseDist greater than zero; inside the guard the scale target, the
detection flag and the rotation targets are written, with the rotation
targets seeded from the currently rendered rotation on the first
detection and smoothed at the source (0.05 on the first frame, 0.2
afterwards). Without landmarks, targets are reset to rest. -/
def onResults (s : Refs) (frame : Option (ℕ → Landmark)) : Refs :=
  match frame with
  | some landmarks =>
      let isFirstDetection := !s.isHandDetected
      let t := landmarks 4
      let i := landmarks 8
      let w := landmarks 0
      let m := landmarks 9
      let dist := hypot3 (t.x - i.x) (t.y - i.y) (t.z - i.z)
      let baseDist := hypot3 (w.x - m.x) (w.y - m.y) (w.z - m.z)
      if 0 < baseDist then
        let normalizedDist := dist / baseDist
        let rxt := if isFirstDetection then s.rotX else s.rotationXTarget
        let ryt := if isFirstDetection then s.rotY else s.rotationYTarget
        let smoothing : ℝ := if isFirstDetection then 0.05 else 0.2
        { s with
          handScaleTarget := scaleMap normalizedDist
          isHandDetected := true
          rotationXTarget := lerp rxt (newRotXOf m) smoothing
          rotationYTarget := lerp ryt (newRotYOf m) smoothing }
      else s
  | none =>
      { s with
        handScaleTarget := 1
        isHandDetected := false
        rotationXTarget := 0
        rotationYTarget := 0 }

/-- One tick of the animate loop of src/src/3d.jsx: advance the scale
channel with factor 0.12, advance every position component toward the
scaled target with factor 0.08, then either track the hand rotation
targets with factor 0.1, or apply the pattern idle tilt with factor 0.1
and advance the continuous Y auto-rotation by 0.001. -/
def animate (s : Refs) : Refs :=
  let newScale := lerp s.handScaleCurrent s.handScaleTarget 0.12
  let positions :=
    List.zipWith (fun pv tv => lerp pv (tv * newScale) 0.08) s.positions s.targetPositions
  if s.isHandDetected then
    { s with
      handScaleCurrent := newScale
      positions := positions
      rotX := lerp s.rotX s.rotationXTarget 0.1
      rotY := lerp s.rotY s.rotationYTarget 0.1
      rotZ := lerp s.rotZ 0 0.1 }
  else
    let baseTiltX : ℝ :=
      if s.currentPattern = Pattern.galaxy ∨ s.currentPattern = Pattern.torus
      then Real.pi / 8 else 0
    let baseTiltZ : ℝ :=
      if s.currentPattern = Pattern.galaxy then Real.pi / 10
      else if s.currentPattern = Pattern.torus then Real.pi / 14
      else 0
    { s with
      handScaleCurrent := newScale
      positions := positions
      rotX := lerp s.rotX baseTiltX 0.1
      rotZ := lerp s.rotZ baseTiltZ 0.1
      rotY := s.rotY + 0.001 }

/-- The reset branch of the MediaPipe useEffect in src/src/3d.jsx,
executed when the webcam is stopped or the library is not ready. -/
def stopGesture (s : Refs) : Refs :=
  { s with
    handScaleTarget := 1
    isHandDetected := false
    rotationXTarget := 0
    rotationYTarget := 0 }

/-- The selectedPattern useEffect of src/src/3d.jsx: regenerate the
pattern data, copy only targetPositions into the a_target attribute,
record the new pattern, and zero the x and y rotation of the cloud. -/
def updatePattern (s : Refs) (p : Pattern) (g : Rng) : Refs :=
  let d := generateParticleData p 15000 g
  { s with
    targetPositions := d.targetPositions
    currentPattern := p
    rotY := 0
    rotX := 0 }

/-- The scene-initialization useEffect of src/src/3d.jsx: buffers come
from generateParticleData (positions being the origin jitter) and the
gesture fields start at their defaults. -/
def initThree (selectedPattern : Pattern) (g : Rng) : Refs :=
  let d := generateParticleData selectedPattern 15000 g
  { positions := d.positions
    targetPositions := d.targetPositions
    sizes := d.sizes
    colors := d.colors
    handScaleTarget := 1
    handScaleCurrent := 1
    currentPattern := selectedPattern
    isHandDetected := false
    rotationXTarget := 0
    rotationYTarget := 0
    rotX := 0
    rotY := 0
    rotZ := 0 }

end V2

namespace V1

/-- The uniform scale constant of generateParticleData in src/3d.jsx. -/
def scaleConst : ℝ := 3

/-- Per-index position rule of generateParticleData in src/3d.jsx. -/
def genPos (p : Pattern) (i count : ℕ) (g : Rng) : Vec3 × Rng :=
  match p with
  | Pattern.sphere =>
      let phi := Real.arccos (-1 + (2 * (i : ℝ)) / (count : ℝ))
      let theta := Real.sqrt ((count : ℝ) * Real.pi) * phi
      (⟨scaleConst * Real.sin phi * Real.sin theta,
        scaleConst * Real.cos phi,
        scaleConst * Real.sin phi * Real.cos theta⟩, g)
  | Pattern.cube =>
      let u0 := g.next.1
      let g := g.next.2
      let u1 := g.next.1
      let g := g.next.2
      let u2 := g.next.1
      let g := g.next.2
      let a := u0 - 0.5
      let b := u1 - 0.5
      let c := u2 - 0.5
      let len0 := Real.sqrt (a ^ 2 + b ^ 2 + c ^ 2)
      let len := if len0 = 0 then 1 else len0
      let vx := a / len * (scaleConst * 1.2)
      let vy := b / len * (scaleConst * 1.2)
      let vz := c / len * (scaleConst * 1.2)
      let maxc := max |vx| (max |vy| |vz|)
      (⟨vx / maxc * (scaleConst * 0.8),
        vy / maxc * (scaleConst * 0.8),
        vz / maxc * (scaleConst * 0.8)⟩, g)
  | Pattern.torus =>
      let angle1 := ((i : ℝ) / (count : ℝ)) * Real.pi * 2
      let angle2 := (((i * 7 % count : ℕ) : ℝ) / (count : ℝ)) * Real.pi * 2
      let R := scaleConst * 0.7
      let r := scaleConst * 0.3
      (⟨(R + r * Real.cos angle2) * Real.cos angle1,
        r * Real.sin angle2,
        (R + r * Real.cos angle2) * Real.sin angle1⟩, g)
  | Pattern.helix =>
      let t := ((i : ℝ) / (count : ℝ)) * Real.pi * 12
      let radius := scaleConst * 0.5
      (⟨radius * Real.cos t, t * 0.2 - scaleConst * 0.6, radius * Real.sin t⟩, g)
  | Pattern.heart =>
      let t := ((i : ℝ) / (count : ℝ)) * Real.pi * 2
      let hScale := scaleConst * 0.12
      let baseX := hScale * 16 * Real.sin t ^ 3
      let baseY := hScale * (13 * Real.cos t - 5 * Real.cos (2 * t)) - scaleConst * 0.3
      let u0 := g.next.1
      let g := g.next.2
      let u1 := g.next.1
      let g := g.next.2
      let u2 := g.next.1
      let g := g.next.2
      let dirX := u0 - 0.5
      let dirY := u1 - 0.5
      let dirZ := u2 - 0.5
      let len := Real.sqrt (dirX * dirX + dirY * dirY + dirZ * dirZ) + 0.0001
      let nX := dirX / len
      let nY := dirY / len
      let nZ := dirZ / len
      let densityPower : ℝ := 3.0
      let maxSpread := scaleConst * 0.6
      let u3 := g.next.1
      let g := g.next.2
      let finalMagnitude := Real.rpow u3 densityPower * maxSpread
      (⟨baseX + nX * finalMagnitude, baseY + nY * finalMagnitude, nZ * finalMagnitude⟩, g)
  | Pattern.wave =>
      let gridSize := ⌈Real.sqrt (count : ℝ)⌉₊
      let x := (((i % gridSize : ℕ) : ℝ) / (gridSize : ℝ) - 0.5) * scaleConst * 2
      let z := (((i / gridSize : ℕ) : ℝ) / (gridSize : ℝ) - 0.5) * scaleConst * 2
      let y := Real.sin (x * 1.5) * Real.cos (z * 1.5) * scaleConst * 0.3
      (⟨x, y, z⟩, g)
  | _ =>
      let angle := ((i : ℝ) / (count : ℝ)) * Real.pi * 8
      let radius := ((i : ℝ) / (count : ℝ)) * scaleConst
      let u0 := g.next.1
      let g := g.next.2
      (⟨radius * Real.cos angle, (u0 - 0.5) * 0.2, radius * Real.sin angle⟩, g)

/-- Main generation loop of generateParticleData in src/3d.jsx; the
color hue band sits at 0.85 in this variant. -/
def mainLoop (p : Pattern) (count : ℕ) :
    ℕ → ℕ → Rng → (List ℝ × List ℝ × List ℝ) × Rng
  | 0, _, g => (([], [], []), g)
  | rem + 1, i, g =>
      let pr := genPos p i count g
      let g1 := pr.2
      let sz := g1.next.1
      let g2 := g1.next.2
      let hh := g2.next.1
      let g3 := g2.next.2
      let ll := g3.next.1
      let g4 := g3.next.2
      let c := setHSL (hh * 0.1 + 0.85) 0.7 (ll * 0.5 + 0.3)
      let rest := mainLoop p count rem (i + 1) g4
      ((pr.1.x :: pr.1.y :: pr.1.z :: rest.1.1,
        (sz * 0.5 + 0.1) :: rest.1.2.1,
        c.1 :: c.2.1 :: c.2.2 :: rest.1.2.2), rest.2)

/-- generateParticleData of src/3d.jsx: uniform scale 3, then the same
origin-jitter overwrite of the positions array as in the other variant. -/
def generateParticleData (p : Pattern) (count : ℕ) (g : Rng) : ParticleData :=
  let main := mainLoop p count count 0 g
  let jit := V2.jitterLoop (count * 3) main.2
  { positions := jit.1
    targetPositions := main.1.1
    sizes := main.1.2.1
    colors := main.1.2.2 }

/-- threeRefs.current of src/3d.jsx together with particles.rotation. -/
structure Refs where
  positions : List ℝ
  targetPositions : List ℝ
  handScaleTarget : ℝ
  handScaleCurrent : ℝ
  autoRotateY : ℝ
  handRotationTargetX : ℝ
  handRotationTargetY : ℝ
  handRotationCurrentX : ℝ
  handRotationCurrentY : ℝ
  rotX : ℝ
  rotY : ℝ

/-- One tick of the animate loop of src/3d.jsx: smooth the scale with
factor 0.08 and both rotation channels with factor 0.05, move positions
toward the scaled targets with factor 0.05, advance the auto-rotation
angle by 0.001 wrapped modulo two pi, and compose the cloud rotation as
the smoothed X channel and the sum of auto-rotation and the smoothed Y
channel. -/
def animate (s : Refs) : Refs :=
  let newScale := lerp s.handScaleCurrent s.handScaleTarget 0.08
  let curX := lerp s.handRotationCurrentX s.handRotationTargetX 0.05
  let curY := lerp s.handRotationCurrentY s.handRotationTargetY 0.05
  let positions :=
    List.zipWith (fun pv tv => lerp pv (tv * newScale) 0.05) s.positions s.targetPositions
  let auto := jsMod (s.autoRotateY + 0.001) (Real.pi * 2)
  { s with
    handScaleCurrent := newScale
    handRotationCurrentX := curX
    handRotationCurrentY := curY
    positions := positions
    autoRotateY := auto
    rotX := curX
    rotY := auto + curY }

end V1

/-- Iterated exponential smoothing: k applications of the per-tick
update current := lerp current target alpha used by both animate loops
on their scalar channels, with a constant target. -/
def smoothIter (alpha target c : ℝ) : ℕ → ℝ
  | 0 => c
  | k + 1 => lerp (smoothIter alpha target c k) target alpha

/-- A concrete random stream for evaluating the generators. -/
def g0 : Rng := ⟨fun _ => 0, 0⟩

/-- A degenerate landmark frame: every landmark at the origin, so the
wrist and the middle-finger base coincide and the normalization base
distance is zero. -/
def lmZero : ℕ → Landmark := fun _ => ⟨0, 0, 0⟩

/-- A well-formed landmark frame: the middle-finger base sits at image
position (1, 0) and every other landmark at the origin, giving a
positive normalization base distance. -/
def lmW : ℕ → Landmark := fun j => if j = 9 then ⟨1, 0, 0⟩ else ⟨0, 0, 0⟩

/-- The rest state of the src/src/3d.jsx session: the state right after
initialization, or equally right after a frame with no landmarks. -/
def s0 : V2.Refs :=
  { positions := []
    targetPositions := []
    sizes := []
    colors := []
    handScaleTarget := 1
    handScaleCurrent := 1
    currentPattern := Pattern.heart
    isHandDetected := false
    rotationXTarget := 0
    rotationYTarget := 0
    rotX := 0
    rotY := 0
    rotZ := 0 }

/-- The initial state of the src/3d.jsx session. -/
def sV1 : V1.Refs :=
  { positions := []
    targetPositions := []
    handScaleTarget := 1
    handScaleCurrent := 1
    autoRotateY := 0
    handRotationTargetX := 0
    handRotationTargetY := 0
    handRotationCurrentX := 0
    handRotationCurrentY := 0
    rotX := 0
    rotY := 0 }

/-! Helper lemmas shared by the claim theorems. -/

theorem lerp_sub_target (a b t : ℝ) : lerp a b t - b = (1 - t) * (a - b) := by
  simp only [lerp]; ring

theorem lerp_sub_self (a b t : ℝ) : lerp a b t - a = t * (b - a) := by
  simp only [lerp]; ring

theorem mainLoop_tps_length (p : Pattern) (scale : ℝ) (count : ℕ) :
    ∀ (rem i : ℕ) (g : Rng),
      (V2.mainLoop p scale count rem i g).1.1.length = 3 * rem := by
  intro rem
  induction rem with
  | zero => intro i g; simp [V2.mainLoop]
  | succ r ih =>
      intro i g
      simp only [V2.mainLoop, List.length_cons, ih]
      omega

theorem mainLoop_sizes_length (p : Pattern) (scale : ℝ) (count : ℕ) :
    ∀ (rem i : ℕ) (g : Rng),
      (V2.mainLoop p scale count rem i g).1.2.1.length = rem := by
  intro rem
  induction rem with
  | zero => intro i g; simp [V2.mainLoop]
  | succ r ih =>
      intro i g
      simp only [V2.mainLoop, List.length_cons, ih]

theorem mainLoop_colors_length (p : Pattern) (scale : ℝ) (count : ℕ) :
    ∀ (rem i : ℕ) (g : Rng),
      (V2.mainLoop p scale count rem i g).1.2.2.length = 3 * rem := by
  intro rem
  induction rem with
  | zero => intro i g; simp [V2.mainLoop]
  | succ r ih =>
      intro i g
      simp only [V2.mainLoop, List.length_cons, ih]
      omega

theorem jitterLoop_length : ∀ (n : ℕ) (g : Rng), (V2.jitterLoop n g).1.length = n := by
  intro n
  induction n with
  | zero => intro g; simp [V2.jitterLoop]
  | succ m ih =>
      intro g
      simp only [V2.jitterLoop, List.length_cons, ih]

theorem generateParticleData_lengths (p : Pattern) (count : ℕ) (g : Rng) :
    (V2.generateParticleData p count g).positions.length = 3 * count
    ∧ (V2.generateParticleData p count g).sizes.length = count
    ∧ (V2.generateParticleData p count g).colors.length = 3 * count
    ∧ (V2.generateParticleData p count g).targetPositions.length = 3 * count := by
  refine ⟨?_, ?_, ?_, ?_⟩ <;>
    simp [V2.generateParticleData, mainLoop_tps_length, mainLoop_sizes_length,
      mainLoop_colors_length, jitterLoop_length] <;> omega

theorem smoothIter_sub_target (alpha target c : ℝ) :
    ∀ k : ℕ, smoothIter alpha target c k - target = (1 - alpha) ^ k * (c - target) := by
  intro k
  induction k with
  | zero => simp [smoothIter]
  | succ n ih =>
      have h : smoothIter alpha target c (n + 1) - target
          = (1 - alpha) * (smoothIter alpha target c n - target) := by
        simp only [smoothIter, lerp]; ring
      rw [h, ih, pow_succ]; ring

theorem jsMod_bounds (a b : ℝ) (ha : 0 ≤ a) (hb : 0 < b) :
    0 ≤ jsMod a b ∧ jsMod a b < b := by
  have hq : 0 ≤ a / b := div_nonneg ha (le_of_lt hb)
  have ht : jsTrunc (a / b) = ⌊a / b⌋ := by simp [jsTrunc, hq]
  have h3 : b * (a / b) = a := by field_simp
  constructor
  · simp only [jsMod, ht]
    have h1 : (⌊a / b⌋ : ℝ) ≤ a / b := Int.floor_le _
    have h2 : b * (⌊a / b⌋ : ℝ) ≤ b * (a / b) := by
      exact mul_le_mul_of_nonneg_left h1 (le_of_lt hb)
    linarith
  · simp only [jsMod, ht]
    have h1 : a / b < (⌊a / b⌋ : ℝ) + 1 := Int.lt_floor_add_one _
    have h2 : b * (a / b) < b * ((⌊a / b⌋ : ℝ) + 1) := by
      exact mul_lt_mul_of_pos_left h1 hb
    nlinarith

theorem jsMod_eq_self (a b : ℝ) (ha : 0 ≤ a) (hab : a < b) : jsMod a b = a := by
  have hb : 0 < b := lt_of_le_of_lt ha hab
  have hq0 : 0 ≤ a / b := div_nonneg ha (le_of_lt hb)
  have hq1 : a / b < 1 := (div_lt_one hb).2 hab
  have hf : ⌊a / b⌋ = 0 := Int.floor_eq_zero_iff.2 ⟨hq0, hq1⟩
  simp [jsMod, jsTrunc, hq0, hf]

/-! Claim theorems. -/

/-- C1 (amended): for every pattern tag and every count at least 1, the
arrays returned by generateParticleData have exactly 3 times count
position entries, count size entries and 3 times count color entries
(and 3 times count target-position entries); every entry is a real
number. The claim as frozen swaps the size and color counts. -/
theorem generateParticleData_array_lengths :
    ∀ (p : Pattern) (count : ℕ) (g : Rng), 1 ≤ count →
      (V2.generateParticleData p count g).positions.length = 3 * count
      ∧ (V2.generateParticleData p count g).sizes.length = count
      ∧ (V2.generateParticleData p count g).colors.length = 3 * count
      ∧ (V2.generateParticleData p count g).targetPositions.length = 3 * count := by
  intro p count g _
  exact generateParticleData_lengths p count g

/-- Witness for C1 at the concrete input sphere, count 1, stream g0. -/
theorem generateParticleData_array_lengths_witness :
    1 ≤ 1
    ∧ ((V2.generateParticleData Pattern.sphere 1 g0).positions.length = 3 * 1
        ∧ (V2.generateParticleData Pattern.sphere 1 g0).sizes.length = 1
        ∧ (V2.generateParticleData Pattern.sphere 1 g0).colors.length = 3 * 1
        ∧ (V2.generateParticleData Pattern.sphere 1 g0).targetPositions.length = 3 * 1) :=
  ⟨by norm_num, generateParticleData_array_lengths Pattern.sphere 1 g0 (by norm_num)⟩

/-- C1 counterexample: at pattern sphere and count 1 the size array has
1 entry, not 3 entries as the frozen claim states, and the color array
has 3 entries, not 1. -/
theorem generateParticleData_counts_swapped_cex :
    ¬ ((V2.generateParticleData Pattern.sphere 1 g0).sizes.length = 3 * 1
        ∧ (V2.generateParticleData Pattern.sphere 1 g0).colors.length = 1) := by
  intro hcontra
  have hs : (V2.generateParticleData Pattern.sphere 1 g0).sizes.length = 1 :=
    (generateParticleData_lengths Pattern.sphere 1 g0).2.1
  rw [hs] at hcontra
  exact absurd hcontra.1 (by norm_num)

/-- C2: on every landmark frame with positive normalization base, the
scale target is set to V2.scaleMap of the pinch ratio; V2.scaleMap sends
every ratio at most minNorm to minScale, every ratio at least maxNorm
to maxScale, is monotone non-decreasing, and always lands inside the
closed band from minScale to maxScale (constants 0.05, 1.2, 0.2, 3). -/
theorem handScale_mapping_clamped :
    (∀ (s : V2.Refs) (lm : ℕ → Landmark),
        0 < hypot3 ((lm 0).x - (lm 9).x) ((lm 0).y - (lm 9).y) ((lm 0).z - (lm 9).z) →
        (V2.onResults s (some lm)).handScaleTarget
          = V2.scaleMap
              (hypot3 ((lm 4).x - (lm 8).x) ((lm 4).y - (lm 8).y) ((lm 4).z - (lm 8).z)
                / hypot3 ((lm 0).x - (lm 9).x) ((lm 0).y - (lm 9).y) ((lm 0).z - (lm 9).z)))
    ∧ (∀ ρ : ℝ, ρ ≤ 0.05 → V2.scaleMap ρ = 0.2)
    ∧ (∀ ρ : ℝ, 1.2 ≤ ρ → V2.scaleMap ρ = 3)
    ∧ Monotone V2.scaleMap
    ∧ (∀ ρ : ℝ, 0.2 ≤ V2.scaleMap ρ ∧ V2.scaleMap ρ ≤ 3) := by
  refine ⟨?_, ?_, ?_, ?_, ?_⟩
  · intro s lm hb
    simp [V2.onResults, hb]
  · intro ρ h
    have hq : (ρ - 0.05) / (1.2 - 0.05) ≤ 0 := by
      apply div_nonpos_of_nonpos_of_nonneg (by linarith) (by norm_num)
    simp only [V2.scaleMap, lerp]
    rw [max_eq_left hq, min_eq_right (by norm_num : (0:ℝ) ≤ 1)]
    norm_num
  · intro ρ h
    have hq : (1:ℝ) ≤ (ρ - 0.05) / (1.2 - 0.05) := by
      rw [le_div_iff (by norm_num)]; linarith
    simp only [V2.scaleMap, lerp]
    rw [max_eq_right (le_trans (by norm_num) hq), min_eq_left hq]
    norm_num
  · intro a b hab
    have hq : (a - 0.05) / (1.2 - 0.05) ≤ (b - 0.05) / (1.2 - 0.05) :=
      (div_le_div_right (by norm_num)).2 (by linarith)
    have h1 : min 1 (max 0 ((a - 0.05) / (1.2 - 0.05)))
        ≤ min 1 (max 0 ((b - 0.05) / (1.2 - 0.05))) :=
      min_le_min le_rfl (max_le_max le_rfl hq)
    simp only [V2.scaleMap, lerp]
    linarith
  · intro ρ
    have h0 : (0:ℝ) ≤ min 1 (max 0 ((ρ - 0.05) / (1.2 - 0.05))) :=
      le_min (by norm_num) (le_max_left _ _)
    have h1 : min 1 (max 0 ((ρ - 0.05) / (1.2 - 0.05))) ≤ 1 := min_le_left _ _
    constructor <;> (simp only [V2.scaleMap, lerp]; linarith)

/-- Witness for C2 at concrete inputs: the rest state with the frame
lmW, and the ratios 0.01, 2, 0.3 against 0.7, and 0.5. -/
theorem handScale_mapping_clamped_witness :
    ((V2.onResults s0 (some lmW)).handScaleTarget
      = V2.scaleMap
          (hypot3 ((lmW 4).x - (lmW 8).x) ((lmW 4).y - (lmW 8).y) ((lmW 4).z - (lmW 8).z)
            / hypot3 ((lmW 0).x - (lmW 9).x) ((lmW 0).y - (lmW 9).y) ((lmW 0).z - (lmW 9).z)))
    ∧ V2.scaleMap 0.01 = 0.2
    ∧ V2.scaleMap 2 = 3
    ∧ V2.scaleMap 0.3 ≤ V2.scaleMap 0.7
    ∧ (0.2 ≤ V2.scaleMap 0.5 ∧ V2.scaleMap 0.5 ≤ 3) := by
  have hb : (0:ℝ)
      < hypot3 ((lmW 0).x - (lmW 9).x) ((lmW 0).y - (lmW 9).y) ((lmW 0).z - (lmW 9).z) := by
    norm_num [lmW, hypot3]
  exact ⟨handScale_mapping_clamped.1 s0 lmW hb,
    handScale_mapping_clamped.2.1 0.01 (by norm_num),
    handScale_mapping_clamped.2.2.1 2 (by norm_num),
    handScale_mapping_clamped.2.2.2.1 (by norm_num : (0.3:ℝ) ≤ 0.7),
    handScale_mapping_clamped.2.2.2.2 0.5⟩

/-- C3 (amended): each smoothing tick multiplies the deviation from a
constant target by exactly 1 - alpha (for alpha at most 1); the scale
channel of the src/src/3d.jsx animate loop is exactly such a tick with
alpha 0.12; for alpha equal to 1 the deviation is zero after one tick;
and for alpha in (0, 1), nonzero initial deviation D and every positive
epsilon, the deviation after k ticks is below epsilon for every natural
k exceeding log(epsilon / D) / log(1 - alpha). The frozen formula
ceil(log epsilon / log(1 - alpha)) fails because it ignores D. -/
theorem smoothing_geometric_decay :
    (∀ (alpha target c : ℝ) (k : ℕ), alpha ≤ 1 →
        |smoothIter alpha target c (k + 1) - target|
          = (1 - alpha) * |smoothIter alpha target c k - target|)
    ∧ (∀ s : V2.Refs,
        (V2.animate s).handScaleCurrent = lerp s.handScaleCurrent s.handScaleTarget 0.12)
    ∧ (∀ (alpha target c : ℝ), alpha = 1 → ∀ k : ℕ, smoothIter alpha target c (k + 1) = target)
    ∧ (∀ (alpha target c ε : ℝ) (k : ℕ), 0 < alpha → alpha < 1 → 0 < ε → c ≠ target →
        Real.log (ε / |c - target|) / Real.log (1 - alpha) < (k : ℝ) →
        |smoothIter alpha target c k - target| < ε) := by
  refine ⟨?_, ?_, ?_, ?_⟩
  · intro alpha target c k h
    have hstep : smoothIter alpha target c (k + 1) - target
        = (1 - alpha) * (smoothIter alpha target c k - target) := by
      simp only [smoothIter, lerp]; ring
    rw [hstep, abs_mul, abs_of_nonneg (by linarith : (0:ℝ) ≤ 1 - alpha)]
  · intro s
    by_cases h : s.isHandDetected <;> simp [V2.animate, h]
  · intro alpha target c h k
    subst h
    simp only [smoothIter, lerp]
    ring
  · intro alpha target c ε k h0 h1 hε hct hk
    have hb0 : (0:ℝ) < 1 - alpha := by linarith
    have hD : 0 < |c - target| := abs_pos.2 (sub_ne_zero.2 hct)
    have hlogb : Real.log (1 - alpha) < 0 := Real.log_neg hb0 (by linarith)
    have hkk : (k : ℝ) * Real.log (1 - alpha) < Real.log (ε / |c - target|) :=
      (div_lt_iff_of_neg hlogb).1 hk
    have hpow : Real.log ((1 - alpha) ^ k) < Real.log (ε / |c - target|) := by
      rw [Real.log_pow]; exact hkk
    have hx : (0:ℝ) < (1 - alpha) ^ k := pow_pos hb0 k
    have hy : (0:ℝ) < ε / |c - target| := div_pos hε hD
    have hpow2 : (1 - alpha) ^ k < ε / |c - target| := by
      have h2 := Real.exp_lt_exp.2 hpow
      rwa [Real.exp_log hx, Real.exp_log hy] at h2
    rw [smoothIter_sub_target, abs_mul, abs_of_nonneg (le_of_lt hx)]
    calc (1 - alpha) ^ k * |c - target|
        < (ε / |c - target|) * |c - target| := by
          exact mul_lt_mul_of_pos_right hpow2 hD
      _ = ε := div_mul_cancel₀ ε (ne_of_gt hD)

/-- Witness for C3 at alpha 0.12, target 0, start 1, epsilon 1, k 1. -/
theorem smoothing_geometric_decay_witness :
    (|smoothIter 0.12 0 1 (0 + 1) - 0| = (1 - 0.12) * |smoothIter 0.12 0 1 0 - 0|)
    ∧ (V2.animate s0).handScaleCurrent = lerp s0.handScaleCurrent s0.handScaleTarget 0.12
    ∧ smoothIter 1 0 5 (0 + 1) = 0
    ∧ |smoothIter 0.12 0 1 1 - 0| < 1 := by
  refine ⟨smoothing_geometric_decay.1 0.12 0 1 0 (by norm_num),
    smoothing_geometric_decay.2.1 s0,
    smoothing_geometric_decay.2.2.1 1 0 5 rfl 0,
    smoothing_geometric_decay.2.2.2 0.12 0 1 1 1 (by norm_num) (by norm_num) (by norm_num)
      (by norm_num) ?_⟩
  have h : (1:ℝ) / |(1:ℝ) - 0| = 1 := by norm_num
  rw [h, Real.log_one, zero_div]
  norm_num

/-- C3 counterexample: with alpha 0.12, target 0, initial value 100 and
epsilon one half, the frozen tick count ceil(log epsilon / log(1 -
alpha)) evaluates to 6, but after 6 ticks the deviation is 100 times
0.88 to the 6th, about 46.4, far above epsilon. -/
theorem smoothing_ceil_formula_cex :
    (⌈Real.log 0.5 / Real.log (1 - 0.12)⌉).toNat = 6
    ∧ ¬ (|smoothIter 0.12 0 100 ((⌈Real.log 0.5 / Real.log (1 - 0.12)⌉).toNat) - 0| < 0.5) := by
  have hb : Real.log (1 - 0.12) < 0 := Real.log_neg (by norm_num) (by norm_num)
  have hlow : (5:ℝ) < Real.log 0.5 / Real.log (1 - 0.12) := by
    rw [lt_div_iff_of_neg hb]
    have h5 : Real.log ((1 - 0.12) ^ (5:ℕ)) = 5 * Real.log (1 - 0.12) := by
      rw [Real.log_pow]; norm_num
    rw [← h5]
    apply Real.log_lt_log (by norm_num)
    norm_num
  have hhigh : Real.log 0.5 / Real.log (1 - 0.12) ≤ 6 := by
    rw [div_le_iff_of_neg hb]
    have h6 : Real.log ((1 - 0.12) ^ (6:ℕ)) = 6 * Real.log (1 - 0.12) := by
      rw [Real.log_pow]; norm_num
    rw [← h6]
    apply Real.log_le_log (by norm_num)
    norm_num
  have hceil : ⌈Real.log 0.5 / Real.log (1 - 0.12)⌉ = (6:ℤ) := by
    rw [Int.ceil_eq_iff]
    constructor
    · push_cast; linarith
    · push_cast; linarith
  refine ⟨by rw [hceil]; rfl, ?_⟩
  rw [hceil]
  have htn : ((6:ℤ)).toNat = 6 := rfl
  rw [htn]
  have hval : smoothIter 0.12 0 100 6 - 0 = (1 - 0.12) ^ (6:ℕ) * (100 - 0) :=
    smoothIter_sub_target 0.12 0 100 6
  rw [hval, abs_of_nonneg (by positivity)]
  norm_num

/-- C4 (amended): a frame with no landmarks sets the gesture state to
exactly scaleTarget 1, rotation targets 0 and handDetected false,
leaving the rendered values untouched; the scale current then moves
toward its target by exactly alpha times the previous deviation per
tick (alpha 0.12); with no hand the X and Z rotation currents track the
idle tilt, which is 0 for non-galaxy, non-torus patterns; but the Y
rotation current does not approach its 0 target: it auto-increments by
the fixed 0.001 every tick regardless of the deviation. -/
theorem noHand_reset_and_smooth_approach :
    (∀ s : V2.Refs,
        (V2.onResults s none).handScaleTarget = 1
        ∧ (V2.onResults s none).rotationXTarget = 0
        ∧ (V2.onResults s none).rotationYTarget = 0
        ∧ (V2.onResults s none).isHandDetected = false
        ∧ (V2.onResults s none).rotX = s.rotX
        ∧ (V2.onResults s none).rotY = s.rotY
        ∧ (V2.onResults s none).handScaleCurrent = s.handScaleCurrent)
    ∧ (∀ s : V2.Refs,
        |(V2.animate s).handScaleCurrent - s.handScaleTarget|
          = (1 - 0.12) * |s.handScaleCurrent - s.handScaleTarget|
        ∧ |(V2.animate s).handScaleCurrent - s.handScaleCurrent|
          = 0.12 * |s.handScaleTarget - s.handScaleCurrent|)
    ∧ (∀ s : V2.Refs, s.isHandDetected = false →
        s.currentPattern ≠ Pattern.galaxy → s.currentPattern ≠ Pattern.torus →
        (V2.animate s).rotX = lerp s.rotX 0 0.1
        ∧ |(V2.animate s).rotX - 0| = (1 - 0.1) * |s.rotX - 0|
        ∧ (V2.animate s).rotZ = lerp s.rotZ 0 0.1)
    ∧ (∀ s : V2.Refs, s.isHandDetected = false → (V2.animate s).rotY = s.rotY + 0.001) := by
  refine ⟨?_, ?_, ?_, ?_⟩
  · intro s
    refine ⟨rfl, rfl, rfl, rfl, rfl, rfl, rfl⟩
  · intro s
    have hcur : (V2.animate s).handScaleCurrent
        = lerp s.handScaleCurrent s.handScaleTarget 0.12 := by
      by_cases h : s.isHandDetected <;> simp [V2.animate, h]
    constructor
    · rw [hcur, lerp_sub_target, abs_mul, abs_of_nonneg (by norm_num : (0:ℝ) ≤ 1 - 0.12)]
    · rw [hcur, lerp_sub_self, abs_mul, abs_of_nonneg (by norm_num : (0:ℝ) ≤ 0.12)]
  · intro s hdet hgal htor
    have h1 : (V2.animate s).rotX = lerp s.rotX 0 0.1 := by
      simp [V2.animate, hdet, hgal, htor]
    have h3 : (V2.animate s).rotZ = lerp s.rotZ 0 0.1 := by
      simp [V2.animate, hdet, hgal, htor]
    refine ⟨h1, ?_, h3⟩
    rw [h1, lerp_sub_target, abs_mul, abs_of_nonneg (by norm_num : (0:ℝ) ≤ 1 - 0.1)]
  · intro s hdet
    simp [V2.animate, hdet]

/-- Witness for C4 at the rest state s0 (a heart-pattern state with no
hand detected). -/
theorem noHand_reset_and_smooth_approach_witness :
    ((V2.onResults s0 none).handScaleTarget = 1
      ∧ (V2.onResults s0 none).rotationXTarget = 0
      ∧ (V2.onResults s0 none).rotationYTarget = 0
      ∧ (V2.onResults s0 none).isHandDetected = false
      ∧ (V2.onResults s0 none).rotX = s0.rotX
      ∧ (V2.onResults s0 none).rotY = s0.rotY
      ∧ (V2.onResults s0 none).handScaleCurrent = s0.handScaleCurrent)
    ∧ ((V2.animate s0).rotX = lerp s0.rotX 0 0.1
        ∧ |(V2.animate s0).rotX - 0| = (1 - 0.1) * |s0.rotX - 0|
        ∧ (V2.animate s0).rotZ = lerp s0.rotZ 0 0.1)
    ∧ (V2.animate s0).rotY = s0.rotY + 0.001 := by
  refine ⟨noHand_reset_and_smooth_approach.1 s0,
    noHand_reset_and_smooth_approach.2.2.1 s0 rfl (by decide) (by decide),
    noHand_reset_and_smooth_approach.2.2.2 s0 rfl⟩

/-- C4 counterexample: starting from the rest state produced by a
no-landmark frame, one render tick moves the Y rotation current by
0.001 although its deviation from the 0 target is 0, so the current
values do not all approach the reset targets and the step is not
bounded by alpha times the previous deviation. -/
theorem noHand_rotationY_autorotate_cex :
    ¬ (|(V2.animate (V2.onResults s0 none)).rotY - (V2.onResults s0 none).rotY|
        ≤ 0.1 * |(V2.onResults s0 none).rotationYTarget - (V2.onResults s0 none).rotY|) := by
  simp [V2.onResults, V2.animate, s0]
  norm_num

/-- C5: on the first landmark frame of a NoHand to HandDetected
transition (previous detection flag false, positive base distance), the
gesture update does not change the rendered rotation of the cloud; the
rotation targets are seeded from the current rendered rotation and
moved toward the freshly computed targets with the slower source
smoothing constant 0.05; the detection flag becomes true, so any later
landmark frame uses the steady-state constant 0.2 from the previous
targets. -/
theorem first_detection_no_jump :
    ∀ (s : V2.Refs) (lm : ℕ → Landmark),
      s.isHandDetected = false →
      0 < hypot3 ((lm 0).x - (lm 9).x) ((lm 0).y - (lm 9).y) ((lm 0).z - (lm 9).z) →
      ((V2.onResults s (some lm)).rotX = s.rotX
        ∧ (V2.onResults s (some lm)).rotY = s.rotY
        ∧ (V2.onResults s (some lm)).rotZ = s.rotZ)
      ∧ (V2.onResults s (some lm)).rotationXTarget
          = lerp s.rotX (V2.newRotXOf (lm 9)) 0.05
      ∧ (V2.onResults s (some lm)).rotationYTarget
          = lerp s.rotY (V2.newRotYOf (lm 9)) 0.05
      ∧ (V2.onResults s (some lm)).isHandDetected = true
      ∧ (∀ s2 : V2.Refs, s2.isHandDetected = true →
          (V2.onResults s2 (some lm)).rotationXTarget
            = lerp s2.rotationXTarget (V2.newRotXOf (lm 9)) 0.2
          ∧ (V2.onResults s2 (some lm)).rotationYTarget
            = lerp s2.rotationYTarget (V2.newRotYOf (lm 9)) 0.2) := by
  intro s lm hdet hb
  refine ⟨?_, ?_, ?_, ?_, ?_⟩
  · exact ⟨by simp [V2.onResults, hdet, hb], by simp [V2.onResults, hdet, hb],
      by simp [V2.onResults, hdet, hb]⟩
  · simp [V2.onResults, hdet, hb]
  · simp [V2.onResults, hdet, hb]
  · simp [V2.onResults, hdet, hb]
  · intro s2 hdet2
    exact ⟨by simp [V2.onResults, hdet2, hb], by simp [V2.onResults, hdet2, hb]⟩

/-- Witness for C5 at the rest state s0 and the frame lmW. -/
theorem first_detection_no_jump_witness :
    ((V2.onResults s0 (some lmW)).rotX = s0.rotX
      ∧ (V2.onResults s0 (some lmW)).rotY = s0.rotY
      ∧ (V2.onResults s0 (some lmW)).rotZ = s0.rotZ)
    ∧ (V2.onResults s0 (some lmW)).rotationXTarget
        = lerp s0.rotX (V2.newRotXOf (lmW 9)) 0.05
    ∧ (V2.onResults s0 (some lmW)).rotationYTarget
        = lerp s0.rotY (V2.newRotYOf (lmW 9)) 0.05
    ∧ (V2.onResults s0 (some lmW)).isHandDetected = true := by
  have hb : (0:ℝ)
      < hypot3 ((lmW 0).x - (lmW 9).x) ((lmW 0).y - (lmW 9).y) ((lmW 0).z - (lmW 9).z) := by
    norm_num [lmW, hypot3]
  have h := first_detection_no_jump s0 lmW rfl hb
  exact ⟨h.1, h.2.1, h.2.2.1, h.2.2.2.1⟩

/-- C6 (amended): a landmark frame flips the detection flag to true
exactly when its normalization base distance is positive; a landmark
frame with zero base distance leaves the flag unchanged, so it does not
fire the NoHand to HandDetected transition; a frame with no landmarks
sets the flag to false at once, and stopping the tracker resets the
flag and the targets to rest. -/
theorem hand_state_transitions :
    (∀ (s : V2.Refs) (lm : ℕ → Landmark),
        0 < hypot3 ((lm 0).x - (lm 9).x) ((lm 0).y - (lm 9).y) ((lm 0).z - (lm 9).z) →
        (V2.onResults s (some lm)).isHandDetected = true)
    ∧ (∀ (s : V2.Refs) (lm : ℕ → Landmark),
        hypot3 ((lm 0).x - (lm 9).x) ((lm 0).y - (lm 9).y) ((lm 0).z - (lm 9).z) = 0 →
        (V2.onResults s (some lm)).isHandDetected = s.isHandDetected)
    ∧ (∀ s : V2.Refs, (V2.onResults s none).isHandDetected = false)
    ∧ (∀ s : V2.Refs,
        (V2.stopGesture s).isHandDetected = false
        ∧ (V2.stopGesture s).handScaleTarget = 1
        ∧ (V2.stopGesture s).rotationXTarget = 0
        ∧ (V2.stopGesture s).rotationYTarget = 0) := by
  refine ⟨?_, ?_, ?_, ?_⟩
  · intro s lm hb
    simp [V2.onResults, hb]
  · intro s lm hb
    simp [V2.onResults, hb]
  · intro s
    rfl
  · intro s
    exact ⟨rfl, rfl, rfl, rfl⟩

/-- Witness for C6: a positive-base frame flips the flag at s0 and a
zero-base frame leaves it. -/
theorem hand_state_transitions_witness :
    (V2.onResults s0 (some lmW)).isHandDetected = true
    ∧ (V2.onResults s0 (some lmZero)).isHandDetected = s0.isHandDetected := by
  have hb : (0:ℝ)
      < hypot3 ((lmW 0).x - (lmW 9).x) ((lmW 0).y - (lmW 9).y) ((lmW 0).z - (lmW 9).z) := by
    norm_num [lmW, hypot3]
  have hz : hypot3 ((lmZero 0).x - (lmZero 9).x) ((lmZero 0).y - (lmZero 9).y)
      ((lmZero 0).z - (lmZero 9).z) = 0 := by
    norm_num [lmZero, hypot3]
  exact ⟨hand_state_transitions.1 s0 lmW hb, hand_state_transitions.2.1 s0 lmZero hz⟩

/-- C6 counterexample: the degenerate frame lmZero does carry a full
landmark set, yet processing it from the undetected rest state leaves
the machine in NoHand, so the transition does not fire on every first
frame containing a landmark set. -/
theorem hand_transition_zero_base_cex :
    ¬ ((V2.onResults s0 (some lmZero)).isHandDetected = true) := by
  have hz : hypot3 ((lmZero 0).x - (lmZero 9).x) ((lmZero 0).y - (lmZero 9).y)
      ((lmZero 0).z - (lmZero 9).z) = 0 := by
    norm_num [lmZero, hypot3]
  simp [V2.onResults, hz, s0]

/-- C7: if the normalization base distance of a landmark frame is zero,
the whole guarded update is skipped: the state after the frame equals
the state before it, in particular the previous scale target is
retained; the update is a total function, so nothing is raised. -/
theorem zero_base_skip_retains_state :
    ∀ (s : V2.Refs) (lm : ℕ → Landmark),
      hypot3 ((lm 0).x - (lm 9).x) ((lm 0).y - (lm 9).y) ((lm 0).z - (lm 9).z) = 0 →
      V2.onResults s (some lm) = s
      ∧ (V2.onResults s (some lm)).handScaleTarget = s.handScaleTarget := by
  intro s lm hb
  have h : V2.onResults s (some lm) = s := by simp [V2.onResults, hb]
  exact ⟨h, by rw [h]⟩

/-- Witness for C7 at the rest state s0 and the degenerate frame. -/
theorem zero_base_skip_retains_state_witness :
    V2.onResults s0 (some lmZero) = s0
    ∧ (V2.onResults s0 (some lmZero)).handScaleTarget = s0.handScaleTarget := by
  have hz : hypot3 ((lmZero 0).x - (lmZero 9).x) ((lmZero 0).y - (lmZero 9).y)
      ((lmZero 0).z - (lmZero 9).z) = 0 := by
    norm_num [lmZero, hypot3]
  exact zero_base_skip_retains_state s0 lmZero hz

theorem mainLoopV1_helix_tps (count : ℕ) :
    ∀ (rem i0 : ℕ) (g : Rng) (j : ℕ), j < rem →
      ((V1.mainLoop Pattern.helix count rem i0 g).1.1[3 * j]?
          = some (0.5 * 3 * Real.cos ((((i0 + j : ℕ) : ℝ) / (count : ℝ)) * (12 * Real.pi))))
      ∧ ((V1.mainLoop Pattern.helix count rem i0 g).1.1[3 * j + 1]?
          = some ((((i0 + j : ℕ) : ℝ) / (count : ℝ)) * (12 * Real.pi) * 0.2 - 1.8))
      ∧ ((V1.mainLoop Pattern.helix count rem i0 g).1.1[3 * j + 2]?
          = some (0.5 * 3 * Real.sin ((((i0 + j : ℕ) : ℝ) / (count : ℝ)) * (12 * Real.pi)))) := by
  intro rem
  induction rem with
  | zero => intro i0 g j hj; exact absurd hj (Nat.not_lt_zero j)
  | succ r ih =>
      intro i0 g j hj
      cases j with
      | zero =>
          have harg : ((i0 : ℝ) / (count : ℝ)) * Real.pi * 12
              = ((i0 : ℝ) / (count : ℝ)) * (12 * Real.pi) := by ring
          refine ⟨?_, ?_, ?_⟩ <;>
            norm_num [V1.mainLoop, V1.genPos, V1.scaleConst, harg]
      | succ j1 =>
          have hj1 : j1 < r := by omega
          refine ⟨?_, ?_, ?_⟩
          · have e : 3 * (j1 + 1) = 3 * j1 + 1 + 1 + 1 := by ring
            rw [e]
            simp only [V1.mainLoop, List.getElem?_cons_succ]
            have hs : i0 + (j1 + 1) = i0 + 1 + j1 := by omega
            rw [hs]
            exact (ih (i0 + 1) _ j1 hj1).1
          · have e : 3 * (j1 + 1) + 1 = 3 * j1 + 1 + 1 + 1 + 1 := by ring
            rw [e]
            simp only [V1.mainLoop, List.getElem?_cons_succ]
            have hs : i0 + (j1 + 1) = i0 + 1 + j1 := by omega
            rw [hs]
            exact (ih (i0 + 1) _ j1 hj1).2.1
          · have e : 3 * (j1 + 1) + 2 = 3 * j1 + 2 + 1 + 1 + 1 := by ring
            rw [e]
            simp only [V1.mainLoop, List.getElem?_cons_succ]
            have hs : i0 + (j1 + 1) = i0 + 1 + j1 := by omega
            rw [hs]
            exact (ih (i0 + 1) _ j1 hj1).2.2

/-- C8: for the helix pattern of src/3d.jsx and every index i below
count, the generated target position is x equal to r cos t and z equal
to r sin t with fixed radius r equal to 0.5 times the scale constant 3,
and y equal to 0.2 t - 1.8, linear in t, where t is (i / count) times
12 pi. -/
theorem helix_parametric_positions :
    ∀ (count : ℕ) (g : Rng) (i : ℕ), i < count →
      ((V1.generateParticleData Pattern.helix count g).targetPositions[3 * i]?
          = some (0.5 * 3 * Real.cos (((i : ℝ) / (count : ℝ)) * (12 * Real.pi))))
      ∧ ((V1.generateParticleData Pattern.helix count g).targetPositions[3 * i + 1]?
          = some (((i : ℝ) / (count : ℝ)) * (12 * Real.pi) * 0.2 - 1.8))
      ∧ ((V1.generateParticleData Pattern.helix count g).targetPositions[3 * i + 2]?
          = some (0.5 * 3 * Real.sin (((i : ℝ) / (count : ℝ)) * (12 * Real.pi)))) := by
  intro count g i hi
  have h := mainLoopV1_helix_tps count count 0 g i hi
  simpa [V1.generateParticleData] using h

/-- Witness for C8 at count 1, index 0, stream g0. -/
theorem helix_parametric_positions_witness :
    ((V1.generateParticleData Pattern.helix 1 g0).targetPositions[3 * 0]?
        = some (0.5 * 3 * Real.cos ((((0:ℕ) : ℝ) / ((1:ℕ) : ℝ)) * (12 * Real.pi))))
    ∧ ((V1.generateParticleData Pattern.helix 1 g0).targetPositions[3 * 0 + 1]?
        = some ((((0:ℕ) : ℝ) / ((1:ℕ) : ℝ)) * (12 * Real.pi) * 0.2 - 1.8)) := by
  have h := helix_parametric_positions 1 g0 0 (by norm_num)
  exact ⟨h.1, h.2.1⟩

/-- C9: whenever a render tick of src/3d.jsx runs (in particular on
every tick with no hand detected), the auto-rotation angle advances by
the fixed increment 0.001 and wraps modulo 2 pi, so starting inside
[0, 2 pi) it stays inside [0, 2 pi) and increases by exactly 0.001
except on the wrapping tick; the wrapped angle is then added to the
smoothed gesture-driven Y rotation to form the rotation applied to the
cloud. -/
theorem auto_rotation_wraps :
    ∀ s : V1.Refs, 0 ≤ s.autoRotateY → s.autoRotateY < Real.pi * 2 →
      ((V1.animate s).autoRotateY = jsMod (s.autoRotateY + 0.001) (Real.pi * 2))
      ∧ (0 ≤ (V1.animate s).autoRotateY ∧ (V1.animate s).autoRotateY < Real.pi * 2)
      ∧ (s.autoRotateY + 0.001 < Real.pi * 2 →
          (V1.animate s).autoRotateY = s.autoRotateY + 0.001)
      ∧ ((V1.animate s).rotY = (V1.animate s).autoRotateY
          + lerp s.handRotationCurrentY s.handRotationTargetY 0.05) := by
  intro s h0 _
  have hb : (0:ℝ) < Real.pi * 2 := by linarith [Real.pi_pos]
  have ha : (0:ℝ) ≤ s.autoRotateY + 0.001 := by linarith
  have heq : (V1.animate s).autoRotateY = jsMod (s.autoRotateY + 0.001) (Real.pi * 2) := rfl
  refine ⟨heq, ?_, ?_, ?_⟩
  · rw [heq]; exact jsMod_bounds _ _ ha hb
  · intro hlt; rw [heq]; exact jsMod_eq_self _ _ ha hlt
  · rfl

/-- Witness for C9 at the initial state of the src/3d.jsx session. -/
theorem auto_rotation_wraps_witness :
    ((V1.animate sV1).autoRotateY = jsMod (sV1.autoRotateY + 0.001) (Real.pi * 2))
    ∧ (0 ≤ (V1.animate sV1).autoRotateY ∧ (V1.animate sV1).autoRotateY < Real.pi * 2)
    ∧ ((V1.animate sV1).rotY = (V1.animate sV1).autoRotateY
        + lerp sV1.handRotationCurrentY sV1.handRotationTargetY 0.05) := by
  have h0 : (0:ℝ) ≤ sV1.autoRotateY := le_refl 0
  have hpi : sV1.autoRotateY < Real.pi * 2 := by
    show (0:ℝ) < Real.pi * 2
    linarith [Real.pi_pos]
  have h := auto_rotation_wraps sV1 h0 hpi
  exact ⟨h.1, h.2.1, h.2.2.2⟩

/-- C10: switching the selected pattern overwrites only the a_target
attribute with the new geometry, records the new pattern and zeroes the
x and y rotation of the cloud; the current position buffer and the size
and color attributes are untouched by the switch (the z rotation is
also untouched), while the origin-jitter positions are installed only
by the scene initialization. -/
theorem pattern_switch_targets_only :
    ∀ (s : V2.Refs) (p : Pattern) (g : Rng),
      (V2.updatePattern s p g).targetPositions
          = (V2.generateParticleData p 15000 g).targetPositions
      ∧ (V2.updatePattern s p g).currentPattern = p
      ∧ (V2.updatePattern s p g).rotX = 0
      ∧ (V2.updatePattern s p g).rotY = 0
      ∧ (V2.updatePattern s p g).positions = s.positions
      ∧ (V2.updatePattern s p g).sizes = s.sizes
      ∧ (V2.updatePattern s p g).colors = s.colors
      ∧ (V2.updatePattern s p g).handScaleTarget = s.handScaleTarget
      ∧ (V2.updatePattern s p g).handScaleCurrent = s.handScaleCurrent
      ∧ (V2.updatePattern s p g).rotZ = s.rotZ
      ∧ (V2.initThree p g).positions = (V2.generateParticleData p 15000 g).positions := by
  intro s p g
  exact ⟨rfl, rfl, rfl, rfl, rfl, rfl, rfl, rfl, rfl, rfl, rfl⟩

end StarWave
